import Mathlib

/-!
Verification of the JalRakshak risk-prediction functions
(`src/jalrakshak.py`): a shallow embedding over `ℚ` of
`calculate_risk_score`, `determine_risk_level`, `predict_disease` and
`get_city_risk_profile`, together with theorems settling the spec claims.

The only non-determinism in the source is the jitter term
`random.uniform(-0.05, 0.05)` added just before the final clamp; it is
embedded as an explicit parameter `jitter`.
-/

namespace JalRakshak

/-- `rainfall_norm = min(1.0, rainfall / 200)` — cap at 200 mm. -/
def rainfall_norm (rainfall : ℚ) : ℚ := min 1 (rainfall / 200)

/-- `contamination_norm = contamination / 100`. -/
def contamination_norm (contamination : ℚ) : ℚ := contamination / 100

/-- `sanitation_norm = (100 - sanitation) / 100` — inverse scale. -/
def sanitation_norm (sanitation : ℚ) : ℚ := (100 - sanitation) / 100

/-- `drainage_norm = (5 - drainage_score) / 4`. -/
def drainage_norm (drainage_score : ℚ) : ℚ := (5 - drainage_score) / 4

/-- `temperature_norm = max(0, min(1, (temperature - 25) / 20))`. -/
def temperature_norm (temperature : ℚ) : ℚ := max 0 (min 1 ((temperature - 25) / 20))

/-- `population_norm = min(1.0, population / 40000)` — cap at 40k/km². -/
def population_norm (population : ℚ) : ℚ := min 1 (population / 40000)

/-- weight of contamination in the weighted sum. -/
def weight_contamination : ℚ := 0.35

/-- weight of sanitation in the weighted sum. -/
def weight_sanitation : ℚ := 0.25

/-- weight of rainfall in the weighted sum. -/
def weight_rainfall : ℚ := 0.20

/-- weight of drainage in the weighted sum. -/
def weight_drainage : ℚ := 0.15

/-- weight of temperature in the weighted sum. -/
def weight_temperature : ℚ := 0.03

/-- weight of population density in the weighted sum. -/
def weight_population : ℚ := 0.02

/-- The weighted risk score before threshold adjustments (source lines
208–215). -/
def weighted_sum (rainfall contamination drainage_score sanitation
    temperature population : ℚ) : ℚ :=
  contamination_norm contamination * weight_contamination +
  sanitation_norm sanitation * weight_sanitation +
  rainfall_norm rainfall * weight_rainfall +
  drainage_norm drainage_score * weight_drainage +
  temperature_norm temperature * weight_temperature +
  population_norm population * weight_population

/-- The final clamp `max(0.05, min(0.98, x))` (source line 238). -/
def clamp_risk (x : ℚ) : ℚ := max 0.05 (min 0.98 x)

/-- `calculate_risk_score` from the source, with the Python defaults
`temperature=30`, `population=25000` passed explicitly by callers and the
random jitter as the explicit parameter `jitter`. -/
def calculate_risk_score (rainfall contamination drainage_score sanitation
    temperature population jitter : ℚ) : ℚ :=
  let s0 := weighted_sum rainfall contamination drainage_score sanitation
    temperature population
  let s1 := if contamination > 80 then s0 * 1.3
    else if contamination > 60 then s0 * 1.15 else s0
  let s2 := if rainfall > 150 then s1 * 1.2
    else if rainfall > 100 then s1 * 1.1 else s1
  let s3 := if sanitation < 30 then s2 * 1.25
    else if sanitation < 50 then s2 * 1.1 else s2
  let s4 := if drainage_score ≥ 4 then s3 * 1.2 else s3
  clamp_risk (s4 + jitter)

/-- `determine_risk_level` from the source: risk label and colour. -/
def determine_risk_level (risk_score : ℚ) : String × String :=
  if risk_score > 0.8 then ("CRITICAL", "#7F1D1D")
  else if risk_score > 0.6 then ("HIGH", "#EF4444")
  else if risk_score > 0.3 then ("MEDIUM", "#F59E0B")
  else ("LOW", "#10B981")

/-- `predict_disease` from the source: ordered rule list. -/
def predict_disease (rainfall contamination drainage_score sanitation : ℚ) :
    String :=
  if contamination > 80 ∧ rainfall > 150 then "Cholera"
  else if contamination > 70 ∧ sanitation < 40 then "Typhoid"
  else if contamination > 60 then "Diarrhea"
  else if rainfall > 180 ∧ drainage_score ≥ 4 then "Hepatitis A"
  else if contamination > 50 ∨ rainfall > 120 then "Waterborne Disease Risk"
  else "Low Risk"

/-- A city risk profile record, the value type of the `city_profiles`
dictionary in the source. -/
structure Profile where
  base_risk : ℚ
  disease : String
  rainfall : ℚ
  contamination : ℚ
  sanitation : ℚ
  drainage : ℚ
deriving DecidableEq, Repr

/-- The default profile returned by `city_profiles.get` for unknown names. -/
def default_profile : Profile :=
  ⟨0.5, "Low Risk", 100, 50, 60, 3⟩

/-- `get_city_risk_profile` from the source: the ten-city dictionary lookup
with the default for unknown names, embedded as an equality chain over the
dictionary keys. -/
def get_city_risk_profile (city_name : String) : Profile :=
  if city_name = "Mumbai" then ⟨0.72, "Cholera", 145, 68, 45, 4⟩
  else if city_name = "Delhi" then ⟨0.65, "Typhoid", 110, 52, 55, 3⟩
  else if city_name = "Chennai" then ⟨0.58, "Diarrhea", 125, 48, 60, 3⟩
  else if city_name = "Kolkata" then ⟨0.68, "Cholera", 140, 62, 48, 4⟩
  else if city_name = "Bangalore" then ⟨0.42, "Low Risk", 95, 35, 70, 2⟩
  else if city_name = "Hyderabad" then ⟨0.55, "Hepatitis A", 105, 45, 58, 3⟩
  else if city_name = "Ahmedabad" then ⟨0.48, "Low Risk", 85, 40, 65, 3⟩
  else if city_name = "Pune" then ⟨0.52, "Typhoid", 115, 38, 62, 3⟩
  else if city_name = "Jaipur" then ⟨0.45, "Low Risk", 75, 32, 68, 3⟩
  else if city_name = "Lucknow" then ⟨0.61, "Diarrhea", 120, 55, 50, 4⟩
  else default_profile

/-- The ten keys of the `city_profiles` dictionary. -/
def city_names : List String :=
  ["Mumbai", "Delhi", "Chennai", "Kolkata", "Bangalore",
   "Hyderabad", "Ahmedabad", "Pune", "Jaipur", "Lucknow"]

/-- Modelled from the spec's wording for the first threshold adjustment:
contamination_pct > 80 → ×1.30; elif > 60 → ×1.15. -/
def contaminationAdjust (contamination x : ℚ) : ℚ :=
  if contamination > 80 then x * 1.3
  else if contamination > 60 then x * 1.15 else x

/-- Modelled from the spec's wording for the second threshold adjustment:
rainfall_mm > 150 → ×1.20; elif > 100 → ×1.10. -/
def rainfallAdjust (rainfall x : ℚ) : ℚ :=
  if rainfall > 150 then x * 1.2
  else if rainfall > 100 then x * 1.1 else x

/-- Modelled from the spec's wording for the third threshold adjustment:
sanitation_pct < 30 → ×1.25; elif < 50 → ×1.10. -/
def sanitationAdjust (sanitation x : ℚ) : ℚ :=
  if sanitation < 30 then x * 1.25
  else if sanitation < 50 then x * 1.1 else x

/-- Modelled from the spec's wording for the fourth threshold adjustment:
drainage_score ≥ 4 → ×1.20. -/
def drainageAdjust (drainage_score x : ℚ) : ℚ :=
  if drainage_score ≥ 4 then x * 1.2 else x

/-- The multiplicative factor the contamination tier contributes. -/
def contaminationFactor (contamination : ℚ) : ℚ :=
  if contamination > 80 then 1.3 else if contamination > 60 then 1.15 else 1

/-- The multiplicative factor the rainfall tier contributes. -/
def rainfallFactor (rainfall : ℚ) : ℚ :=
  if rainfall > 150 then 1.2 else if rainfall > 100 then 1.1 else 1

/-- The multiplicative factor the sanitation tier contributes. -/
def sanitationFactor (sanitation : ℚ) : ℚ :=
  if sanitation < 30 then 1.25 else if sanitation < 50 then 1.1 else 1

/-- The multiplicative factor the drainage tier contributes. -/
def drainageFactor (drainage_score : ℚ) : ℚ :=
  if drainage_score ≥ 4 then 1.2 else 1

/-! ## Helper lemmas -/

/-- The clamp never goes below 0.05. -/
lemma clamp_risk_ge (x : ℚ) : 0.05 ≤ clamp_risk x := le_max_left _ _

/-- The clamp never goes above 0.98. -/
lemma clamp_risk_le (x : ℚ) : clamp_risk x ≤ 0.98 :=
  max_le (by norm_num) (min_le_left _ _)

/-! ## Claim theorems -/

/-- C1: for every input tuple and every jitter value in [-0.05, +0.05],
`calculate_risk_score` returns a value in the closed interval
[0.05, 0.98] — the final clamp makes the range postcondition hold. -/
theorem calculate_risk_score_in_range
    (rainfall contamination drainage_score sanitation
      temperature population jitter : ℚ)
    (h1 : -0.05 ≤ jitter) (h2 : jitter ≤ 0.05) :
    0.05 ≤ calculate_risk_score rainfall contamination drainage_score
      sanitation temperature population jitter ∧
    calculate_risk_score rainfall contamination drainage_score
      sanitation temperature population jitter ≤ 0.98 := by
  unfold calculate_risk_score
  exact ⟨clamp_risk_ge _, clamp_risk_le _⟩

/-- Witness instantiating `calculate_risk_score_in_range` at a concrete
input. -/
theorem calculate_risk_score_in_range_witness :
    0.05 ≤ calculate_risk_score 0 0 0 0 0 0 0 ∧
    calculate_risk_score 0 0 0 0 0 0 0 ≤ 0.98 :=
  calculate_risk_score_in_range 0 0 0 0 0 0 0 (by norm_num) (by norm_num)

/-- C3: `determine_risk_level` evaluates thresholds top-down with strict
greater-than semantics, first match wins; boundaries 0.8, 0.6, 0.3 fall to
the lower tier. -/
theorem determine_risk_level_thresholds :
    (∀ s : ℚ,
      (s > 0.8 → determine_risk_level s = ("CRITICAL", "#7F1D1D")) ∧
      (s ≤ 0.8 → s > 0.6 → determine_risk_level s = ("HIGH", "#EF4444")) ∧
      (s ≤ 0.6 → s > 0.3 → determine_risk_level s = ("MEDIUM", "#F59E0B")) ∧
      (s ≤ 0.3 → determine_risk_level s = ("LOW", "#10B981"))) ∧
    determine_risk_level 0.8 = ("HIGH", "#EF4444") ∧
    determine_risk_level 0.6 = ("MEDIUM", "#F59E0B") ∧
    determine_risk_level 0.3 = ("LOW", "#10B981") := by
  refine ⟨fun s => ⟨?_, ?_, ?_, ?_⟩, by norm_num [determine_risk_level],
    by norm_num [determine_risk_level], by norm_num [determine_risk_level]⟩
  · intro h
    unfold determine_risk_level
    rw [if_pos h]
  · intro h1 h2
    unfold determine_risk_level
    rw [if_neg (not_lt.mpr h1), if_pos h2]
  · intro h1 h2
    unfold determine_risk_level
    rw [if_neg (not_lt.mpr (h1.trans (by norm_num))), if_neg (not_lt.mpr h1),
      if_pos h2]
  · intro h1
    unfold determine_risk_level
    rw [if_neg (not_lt.mpr (h1.trans (by norm_num))),
      if_neg (not_lt.mpr (h1.trans (by norm_num))), if_neg (not_lt.mpr h1)]

/-- Witness instantiating `determine_risk_level_thresholds` on each tier. -/
theorem determine_risk_level_thresholds_witness :
    determine_risk_level 0.9 = ("CRITICAL", "#7F1D1D") ∧
    determine_risk_level 0.7 = ("HIGH", "#EF4444") ∧
    determine_risk_level 0.4 = ("MEDIUM", "#F59E0B") ∧
    determine_risk_level 0.2 = ("LOW", "#10B981") :=
  ⟨(determine_risk_level_thresholds.1 0.9).1 (by norm_num),
   (determine_risk_level_thresholds.1 0.7).2.1 (by norm_num) (by norm_num),
   (determine_risk_level_thresholds.1 0.4).2.2.1 (by norm_num) (by norm_num),
   (determine_risk_level_thresholds.1 0.2).2.2.2 (by norm_num)⟩

/-- C4: `predict_disease` evaluates its six rules in the documented order
with first-match-wins priority; in particular at rainfall 160,
contamination 85, drainage 3, sanitation 60, rule 1 (Cholera) fires even
though rule 3's condition (contamination > 60) also holds. -/
theorem predict_disease_rule_order :
    (∀ r c d s : ℚ,
      (c > 80 ∧ r > 150 → predict_disease r c d s = "Cholera") ∧
      (¬(c > 80 ∧ r > 150) → c > 70 ∧ s < 40 →
        predict_disease r c d s = "Typhoid") ∧
      (¬(c > 80 ∧ r > 150) → ¬(c > 70 ∧ s < 40) → c > 60 →
        predict_disease r c d s = "Diarrhea") ∧
      (¬(c > 80 ∧ r > 150) → ¬(c > 70 ∧ s < 40) → ¬(c > 60) →
        r > 180 ∧ d ≥ 4 → predict_disease r c d s = "Hepatitis A") ∧
      (¬(c > 80 ∧ r > 150) → ¬(c > 70 ∧ s < 40) → ¬(c > 60) →
        ¬(r > 180 ∧ d ≥ 4) → c > 50 ∨ r > 120 →
        predict_disease r c d s = "Waterborne Disease Risk") ∧
      (¬(c > 80 ∧ r > 150) → ¬(c > 70 ∧ s < 40) → ¬(c > 60) →
        ¬(r > 180 ∧ d ≥ 4) → ¬(c > 50 ∨ r > 120) →
        predict_disease r c d s = "Low Risk")) ∧
    predict_disease 160 85 3 60 = "Cholera" ∧ (85 : ℚ) > 60 := by
  refine ⟨fun r c d s => ⟨?_, ?_, ?_, ?_, ?_, ?_⟩,
    by norm_num [predict_disease], by norm_num⟩
  · intro h1
    unfold predict_disease
    rw [if_pos h1]
  · intro h1 h2
    unfold predict_disease
    rw [if_neg h1, if_pos h2]
  · intro h1 h2 h3
    unfold predict_disease
    rw [if_neg h1, if_neg h2, if_pos h3]
  · intro h1 h2 h3 h4
    unfold predict_disease
    rw [if_neg h1, if_neg h2, if_neg h3, if_pos h4]
  · intro h1 h2 h3 h4 h5
    unfold predict_disease
    rw [if_neg h1, if_neg h2, if_neg h3, if_neg h4, if_pos h5]
  · intro h1 h2 h3 h4 h5
    unfold predict_disease
    rw [if_neg h1, if_neg h2, if_neg h3, if_neg h4, if_neg h5]

/-- Witness instantiating `predict_disease_rule_order` on each of the six
rules. -/
theorem predict_disease_rule_order_witness :
    predict_disease 160 85 3 60 = "Cholera" ∧
    predict_disease 100 75 3 30 = "Typhoid" ∧
    predict_disease 100 65 3 50 = "Diarrhea" ∧
    predict_disease 190 40 4 50 = "Hepatitis A" ∧
    predict_disease 130 40 3 50 = "Waterborne Disease Risk" ∧
    predict_disease 100 40 3 50 = "Low Risk" :=
  ⟨(predict_disease_rule_order.1 160 85 3 60).1 (by norm_num),
   (predict_disease_rule_order.1 100 75 3 30).2.1 (by norm_num) (by norm_num),
   (predict_disease_rule_order.1 100 65 3 50).2.2.1 (by norm_num)
     (by norm_num) (by norm_num),
   (predict_disease_rule_order.1 190 40 4 50).2.2.2.1 (by norm_num)
     (by norm_num) (by norm_num) (by norm_num),
   (predict_disease_rule_order.1 130 40 3 50).2.2.2.2.1 (by norm_num)
     (by norm_num) (by norm_num) (by norm_num) (by norm_num),
   (predict_disease_rule_order.1 100 40 3 50).2.2.2.2.2 (by norm_num)
     (by norm_num) (by norm_num) (by norm_num) (by norm_num)⟩

/-- C6: with jitter 0 and defaults temperature 30, population 25000,
`calculate_risk_score 145 68 4 45` equals the documented formula value
0.578 × 1.15 × 1.1 × 1.1 × 1.2 = 0.9651444 exactly, which lies inside
[0.05, 0.98] so the clamp does not alter it. -/
theorem calculate_risk_score_mumbai_value :
    calculate_risk_score 145 68 4 45 30 25000 0 = 0.9651444 ∧
    (0.9651444 : ℚ) = 0.578 * 1.15 * 1.1 * 1.1 * 1.2 ∧
    (0.05 : ℚ) ≤ 0.9651444 ∧ (0.9651444 : ℚ) ≤ 0.98 := by
  refine ⟨?_, by norm_num, by norm_num, by norm_num⟩
  norm_num [calculate_risk_score, weighted_sum, rainfall_norm,
    contamination_norm, sanitation_norm, drainage_norm, temperature_norm,
    population_norm, weight_contamination, weight_sanitation,
    weight_rainfall, weight_drainage, weight_temperature, weight_population,
    clamp_risk]

/-- C9: the six fixed weights are contamination 0.35, sanitation 0.25,
rainfall 0.20, drainage 0.15, temperature 0.03, population 0.02, and they
sum to exactly 1 in rational arithmetic. -/
theorem weights_sum_to_one :
    weight_contamination = 0.35 ∧ weight_sanitation = 0.25 ∧
    weight_rainfall = 0.20 ∧ weight_drainage = 0.15 ∧
    weight_temperature = 0.03 ∧ weight_population = 0.02 ∧
    weight_contamination + weight_sanitation + weight_rainfall +
      weight_drainage + weight_temperature + weight_population = 1 := by
  norm_num [weight_contamination, weight_sanitation, weight_rainfall,
    weight_drainage, weight_temperature, weight_population]

/-- C7: `get_city_risk_profile` is total; "Mumbai" returns its exact
hardcoded profile, and every name outside the ten-city table — including
the case variant "mumbai" and the unknown "Atlantis" — returns the fixed
default profile. -/
theorem get_city_risk_profile_total :
    get_city_risk_profile "Mumbai" = ⟨0.72, "Cholera", 145, 68, 45, 4⟩ ∧
    get_city_risk_profile "mumbai" = default_profile ∧
    get_city_risk_profile "Atlantis" = default_profile ∧
    ∀ name : String, name ∉ city_names →
      get_city_risk_profile name = default_profile := by
  refine ⟨by simp [get_city_risk_profile],
    by simp [get_city_risk_profile],
    by simp [get_city_risk_profile], ?_⟩
  intro name h
  simp only [city_names, List.mem_cons, List.not_mem_nil, or_false,
    not_or] at h
  obtain ⟨e1, e2, e3, e4, e5, e6, e7, e8, e9, e10⟩ := h
  unfold get_city_risk_profile
  rw [if_neg e1, if_neg e2, if_neg e3, if_neg e4, if_neg e5, if_neg e6,
    if_neg e7, if_neg e8, if_neg e9, if_neg e10]

/-- Witness instantiating `get_city_risk_profile_total` at a name outside
the table. -/
theorem get_city_risk_profile_total_witness :
    get_city_risk_profile "Varanasi" = default_profile :=
  get_city_risk_profile_total.2.2.2 "Varanasi" (by decide)

/-- C10: the catalog's stored disease labels are not derived from the
disease predictor: Lucknow stores "Diarrhea", while `predict_disease` on
Lucknow's own stored parameters returns "Waterborne Disease Risk". -/
theorem catalog_disease_not_derived :
    (get_city_risk_profile "Lucknow").disease = "Diarrhea" ∧
    predict_disease (get_city_risk_profile "Lucknow").rainfall
      (get_city_risk_profile "Lucknow").contamination
      (get_city_risk_profile "Lucknow").drainage
      (get_city_risk_profile "Lucknow").sanitation =
      "Waterborne Disease Risk" ∧
    (get_city_risk_profile "Lucknow").disease ≠
      predict_disease (get_city_risk_profile "Lucknow").rainfall
        (get_city_risk_profile "Lucknow").contamination
        (get_city_risk_profile "Lucknow").drainage
        (get_city_risk_profile "Lucknow").sanitation := by
  have h : get_city_risk_profile "Lucknow" = ⟨0.61, "Diarrhea", 120, 55, 50, 4⟩ := by
    simp [get_city_risk_profile]
  have hp : predict_disease 120 55 4 50 = "Waterborne Disease Risk" := by
    norm_num [predict_disease]
  rw [h]
  refine ⟨rfl, hp, ?_⟩
  show ("Diarrhea" : String) ≠ predict_disease 120 55 4 50
  rw [hp]
  decide

/-- C8: for raw inputs in the documented ranges, each of the six
normalized sub-scores lies in [0,1]; rainfall and population are
ceiling-capped so arbitrarily large raw values saturate at 1. -/
theorem norms_in_unit_interval
    (rainfall contamination sanitation drainage_score temperature
      population : ℚ)
    (hr : 0 ≤ rainfall) (hc0 : 0 ≤ contamination) (hc1 : contamination ≤ 100)
    (hs0 : 0 ≤ sanitation) (hs1 : sanitation ≤ 100)
    (hd0 : 1 ≤ drainage_score) (hd1 : drainage_score ≤ 5)
    (hp : 0 ≤ population) :
    (0 ≤ rainfall_norm rainfall ∧ rainfall_norm rainfall ≤ 1) ∧
    (0 ≤ contamination_norm contamination ∧
      contamination_norm contamination ≤ 1) ∧
    (0 ≤ sanitation_norm sanitation ∧ sanitation_norm sanitation ≤ 1) ∧
    (0 ≤ drainage_norm drainage_score ∧ drainage_norm drainage_score ≤ 1) ∧
    (0 ≤ temperature_norm temperature ∧ temperature_norm temperature ≤ 1) ∧
    (0 ≤ population_norm population ∧ population_norm population ≤ 1) ∧
    (∀ r2 : ℚ, 200 ≤ r2 → rainfall_norm r2 = 1) ∧
    (∀ p2 : ℚ, 40000 ≤ p2 → population_norm p2 = 1) := by
  refine ⟨⟨?_, ?_⟩, ⟨?_, ?_⟩, ⟨?_, ?_⟩, ⟨?_, ?_⟩, ⟨?_, ?_⟩, ⟨?_, ?_⟩,
    ?_, ?_⟩
  · exact le_min (by norm_num) (by positivity)
  · exact min_le_left _ _
  · exact div_nonneg hc0 (by norm_num)
  · exact (div_le_one (by norm_num)).mpr hc1
  · exact div_nonneg (by linarith) (by norm_num)
  · exact (div_le_one (by norm_num)).mpr (by linarith)
  · exact div_nonneg (by linarith) (by norm_num)
  · exact (div_le_one (by norm_num)).mpr (by linarith)
  · exact le_max_left _ _
  · exact max_le (by norm_num) (min_le_left _ _)
  · exact le_min (by norm_num) (by positivity)
  · exact min_le_left _ _
  · intro r2 h
    unfold rainfall_norm
    exact min_eq_left ((le_div_iff₀ (by norm_num)).mpr (by linarith))
  · intro p2 h
    unfold population_norm
    exact min_eq_left ((le_div_iff₀ (by norm_num)).mpr (by linarith))

/-- Witness instantiating `norms_in_unit_interval` at concrete in-range
inputs. -/
theorem norms_in_unit_interval_witness :
    (0 ≤ rainfall_norm 100 ∧ rainfall_norm 100 ≤ 1) ∧
    (0 ≤ contamination_norm 50 ∧ contamination_norm 50 ≤ 1) ∧
    (0 ≤ sanitation_norm 60 ∧ sanitation_norm 60 ≤ 1) ∧
    (0 ≤ drainage_norm 3 ∧ drainage_norm 3 ≤ 1) ∧
    (0 ≤ temperature_norm 30 ∧ temperature_norm 30 ≤ 1) ∧
    (0 ≤ population_norm 25000 ∧ population_norm 25000 ≤ 1) ∧
    rainfall_norm 250 = 1 ∧ population_norm 50000 = 1 := by
  have h := norms_in_unit_interval 100 50 60 3 30 25000 (by norm_num)
    (by norm_num) (by norm_num) (by norm_num) (by norm_num) (by norm_num)
    (by norm_num) (by norm_num)
  exact ⟨h.1, h.2.1, h.2.2.1, h.2.2.2.1, h.2.2.2.2.1, h.2.2.2.2.2.1,
    h.2.2.2.2.2.2.1 250 (by norm_num), h.2.2.2.2.2.2.2 50000 (by norm_num)⟩

/-- The pre-clamp score factors as the weighted sum times the four tier
factors. -/
lemma score_factored (r c d s t p j : ℚ) :
    calculate_risk_score r c d s t p j =
      clamp_risk (weighted_sum r c d s t p * contaminationFactor c *
        rainfallFactor r * sanitationFactor s * drainageFactor d + j) := by
  simp only [calculate_risk_score, contaminationFactor, rainfallFactor,
    sanitationFactor, drainageFactor]
  split_ifs <;> exact congrArg clamp_risk (by ring)

/-- The clamp is monotone. -/
lemma clamp_risk_mono {a b : ℚ} (h : a ≤ b) : clamp_risk a ≤ clamp_risk b :=
  max_le_max le_rfl (min_le_min le_rfl h)

/-- The clamp collapses anything at or below 0.05 to 0.05. -/
lemma clamp_risk_of_le {x : ℚ} (h : x ≤ 0.05) : clamp_risk x = 0.05 := by
  unfold clamp_risk
  rw [min_eq_right (h.trans (by norm_num)), max_eq_left h]

/-- Each tier factor is positive. -/
lemma contaminationFactor_pos (c : ℚ) : 0 < contaminationFactor c := by
  unfold contaminationFactor
  split_ifs <;> norm_num

/-- Each tier factor is positive. -/
lemma rainfallFactor_pos (r : ℚ) : 0 < rainfallFactor r := by
  unfold rainfallFactor
  split_ifs <;> norm_num

/-- Each tier factor is positive. -/
lemma sanitationFactor_pos (s : ℚ) : 0 < sanitationFactor s := by
  unfold sanitationFactor
  split_ifs <;> norm_num

/-- Each tier factor is positive. -/
lemma drainageFactor_pos (d : ℚ) : 0 < drainageFactor d := by
  unfold drainageFactor
  split_ifs <;> norm_num

/-- The contamination tier factor is non-decreasing. -/
lemma contaminationFactor_mono {c1 c2 : ℚ} (h : c1 ≤ c2) :
    contaminationFactor c1 ≤ contaminationFactor c2 := by
  unfold contaminationFactor
  split_ifs <;> norm_num <;> linarith

/-- The rainfall tier factor is non-decreasing. -/
lemma rainfallFactor_mono {r1 r2 : ℚ} (h : r1 ≤ r2) :
    rainfallFactor r1 ≤ rainfallFactor r2 := by
  unfold rainfallFactor
  split_ifs <;> norm_num <;> linarith

/-- The sanitation tier factor is non-increasing. -/
lemma sanitationFactor_anti {s1 s2 : ℚ} (h : s1 ≤ s2) :
    sanitationFactor s2 ≤ sanitationFactor s1 := by
  unfold sanitationFactor
  split_ifs <;> norm_num <;> linarith

/-- Clamped product monotonicity: if the base and its factor both grow and
the rest is nonnegative, the clamped product grows. -/
lemma clamp_mul_mono {b1 b2 F1 F2 G : ℚ} (hb : b1 ≤ b2) (hF : F1 ≤ F2)
    (hF1 : 0 ≤ F1) (hG : 0 ≤ G) :
    clamp_risk (b1 * F1 * G) ≤ clamp_risk (b2 * F2 * G) := by
  rcases le_or_lt b1 0 with h0 | h0
  · have hneg : b1 * F1 * G ≤ 0 := by
      have hFG : 0 ≤ F1 * G := mul_nonneg hF1 hG
      nlinarith
    rw [clamp_risk_of_le (hneg.trans (by norm_num))]
    exact clamp_risk_ge _
  · have hb2 : 0 ≤ b2 := le_of_lt (h0.trans_le hb)
    have hstep : b1 * F1 ≤ b2 * F2 := mul_le_mul hb hF hF1 hb2
    exact clamp_risk_mono (mul_le_mul_of_nonneg_right hstep hG)

/-- The weighted sum is non-decreasing in contamination. -/
lemma weighted_sum_mono_contamination (r d s t p : ℚ) {c1 c2 : ℚ}
    (h : c1 ≤ c2) :
    weighted_sum r c1 d s t p ≤ weighted_sum r c2 d s t p := by
  unfold weighted_sum contamination_norm weight_contamination
  have h35 : c1 / 100 * (0.35 : ℚ) ≤ c2 / 100 * 0.35 := by linarith
  linarith

/-- The weighted sum is non-decreasing in rainfall. -/
lemma weighted_sum_mono_rainfall (c d s t p : ℚ) {r1 r2 : ℚ} (h : r1 ≤ r2) :
    weighted_sum r1 c d s t p ≤ weighted_sum r2 c d s t p := by
  unfold weighted_sum rainfall_norm weight_rainfall
  have hmin : min (1 : ℚ) (r1 / 200) ≤ min 1 (r2 / 200) :=
    min_le_min le_rfl (by linarith)
  linarith

/-- The weighted sum is non-increasing in sanitation. -/
lemma weighted_sum_anti_sanitation (r c d t p : ℚ) {s1 s2 : ℚ}
    (h : s1 ≤ s2) :
    weighted_sum r c d s2 t p ≤ weighted_sum r c d s1 t p := by
  unfold weighted_sum sanitation_norm weight_sanitation
  have h25 : (100 - s2) / 100 * (0.25 : ℚ) ≤ (100 - s1) / 100 * 0.25 := by
    linarith
  linarith

/-- C2: `calculate_risk_score` applies exactly the four multiplicative
threshold adjustments of the spec, in the fixed order contamination then
rainfall then sanitation then drainage, each conditioned on the raw input
with the documented cutoffs and factors. -/
theorem calculate_risk_score_adjust_order (r c d s t p j : ℚ) :
    calculate_risk_score r c d s t p j =
      clamp_risk (drainageAdjust d (sanitationAdjust s (rainfallAdjust r
        (contaminationAdjust c (weighted_sum r c d s t p)))) + j) := rfl

/-- C5: with jitter fixed at 0, `calculate_risk_score` is non-decreasing
in contamination and in rainfall, and non-increasing in sanitation, the
other arguments held fixed. -/
theorem calculate_risk_score_monotone :
    (∀ r d s t p c1 c2 : ℚ, c1 ≤ c2 →
      calculate_risk_score r c1 d s t p 0 ≤
        calculate_risk_score r c2 d s t p 0) ∧
    (∀ c d s t p r1 r2 : ℚ, r1 ≤ r2 →
      calculate_risk_score r1 c d s t p 0 ≤
        calculate_risk_score r2 c d s t p 0) ∧
    (∀ r c d t p s1 s2 : ℚ, s1 ≤ s2 →
      calculate_risk_score r c d s2 t p 0 ≤
        calculate_risk_score r c d s1 t p 0) := by
  refine ⟨?_, ?_, ?_⟩
  · intro r d s t p c1 c2 h
    rw [score_factored, score_factored, add_zero, add_zero]
    have e1 : weighted_sum r c1 d s t p * contaminationFactor c1 *
        rainfallFactor r * sanitationFactor s * drainageFactor d =
        weighted_sum r c1 d s t p * contaminationFactor c1 *
          (rainfallFactor r * (sanitationFactor s * drainageFactor d)) := by
      ring
    have e2 : weighted_sum r c2 d s t p * contaminationFactor c2 *
        rainfallFactor r * sanitationFactor s * drainageFactor d =
        weighted_sum r c2 d s t p * contaminationFactor c2 *
          (rainfallFactor r * (sanitationFactor s * drainageFactor d)) := by
      ring
    rw [e1, e2]
    exact clamp_mul_mono (weighted_sum_mono_contamination r d s t p h)
      (contaminationFactor_mono h) (contaminationFactor_pos c1).le
      (mul_nonneg (rainfallFactor_pos r).le
        (mul_nonneg (sanitationFactor_pos s).le (drainageFactor_pos d).le))
  · intro c d s t p r1 r2 h
    rw [score_factored, score_factored, add_zero, add_zero]
    have e1 : weighted_sum r1 c d s t p * contaminationFactor c *
        rainfallFactor r1 * sanitationFactor s * drainageFactor d =
        weighted_sum r1 c d s t p * rainfallFactor r1 *
          (contaminationFactor c * (sanitationFactor s * drainageFactor d)) := by
      ring
    have e2 : weighted_sum r2 c d s t p * contaminationFactor c *
        rainfallFactor r2 * sanitationFactor s * drainageFactor d =
        weighted_sum r2 c d s t p * rainfallFactor r2 *
          (contaminationFactor c * (sanitationFactor s * drainageFactor d)) := by
      ring
    rw [e1, e2]
    exact clamp_mul_mono (weighted_sum_mono_rainfall c d s t p h)
      (rainfallFactor_mono h) (rainfallFactor_pos r1).le
      (mul_nonneg (contaminationFactor_pos c).le
        (mul_nonneg (sanitationFactor_pos s).le (drainageFactor_pos d).le))
  · intro r c d t p s1 s2 h
    rw [score_factored, score_factored, add_zero, add_zero]
    have e1 : weighted_sum r c d s2 t p * contaminationFactor c *
        rainfallFactor r * sanitationFactor s2 * drainageFactor d =
        weighted_sum r c d s2 t p * sanitationFactor s2 *
          (contaminationFactor c * (rainfallFactor r * drainageFactor d)) := by
      ring
    have e2 : weighted_sum r c d s1 t p * contaminationFactor c *
        rainfallFactor r * sanitationFactor s1 * drainageFactor d =
        weighted_sum r c d s1 t p * sanitationFactor s1 *
          (contaminationFactor c * (rainfallFactor r * drainageFactor d)) := by
      ring
    rw [e1, e2]
    exact clamp_mul_mono (weighted_sum_anti_sanitation r c d t p h)
      (sanitationFactor_anti h) (sanitationFactor_pos s2).le
      (mul_nonneg (contaminationFactor_pos c).le
        (mul_nonneg (rainfallFactor_pos r).le (drainageFactor_pos d).le))

/-- Witness instantiating `calculate_risk_score_monotone` at concrete
inputs for each of the three arguments. -/
theorem calculate_risk_score_monotone_witness :
    calculate_risk_score 100 50 3 60 30 25000 0 ≤
      calculate_risk_score 100 70 3 60 30 25000 0 ∧
    calculate_risk_score 100 50 3 60 30 25000 0 ≤
      calculate_risk_score 160 50 3 60 30 25000 0 ∧
    calculate_risk_score 100 50 3 60 30 25000 0 ≤
      calculate_risk_score 100 50 3 40 30 25000 0 :=
  ⟨calculate_risk_score_monotone.1 100 3 60 30 25000 50 70 (by norm_num),
   calculate_risk_score_monotone.2.1 50 3 60 30 25000 100 160 (by norm_num),
   calculate_risk_score_monotone.2.2 100 50 3 30 25000 40 60 (by norm_num)⟩

end JalRakshak
